import Mathlib

/-!
Verification of the telegram AI-relay gateway.

The development shallowly embeds the Python sources:
 - `ai_service.py` / `generate_ai_response`: the upstream stream client,
   modelled as a function from a provider oracle (outcome of each request
   attempt) to the finite list of events (yielded text fragments and
   backoff sleeps) the async generator produces;
 - `telegram_bot.py` / `TelegramBot.handle_message`: the relay buffer and
   publisher, modelled as a function from a downstream-outcome oracle (the
   result of each successive send/edit call) and the fragment list to the
   trace of downstream calls and sleeps it performs;
 - `telegram_bot.py` / `TelegramBot.setup_application`, `TelegramBot.shutdown`:
   the session lifecycle, modelled on an explicit bot-state record;
 - `main.py` / `webhook`: the webhook endpoint, modelled as a pure function
   from settings, bot state and request to an HTTP response and the
   (unchanged) bot state.

Sleeps are recorded in milliseconds.
-/

namespace Telegram

/-! ## Upstream stream client (`ai_service.py`, `generate_ai_response`) -/

/-- Outcome of one streaming request attempt against the AI provider
(`client.chat.completions.create` plus the `async for` that drains it):
either the stream succeeds and delivers a list of content chunks, or it
raises `openai.APITimeoutError`, `openai.APIConnectionError`,
`openai.APIError`, or some other exception. -/
inductive UpstreamAttempt where
  | success (chunks : List String)
  | timeout
  | connError
  | apiError (msg : String)
  | unexpected (msg : String)
deriving DecidableEq

/-- One observable event of the `generate_ai_response` async generator:
a `yield`ed text fragment or an `asyncio.sleep` (duration in ms). -/
inductive StreamEvent where
  | yieldFrag (s : String)
  | sleep (ms : Nat)
deriving DecidableEq

/-- Fragment yielded before each timeout-retry sleep (`ai_service.py` line 60). -/
def timeoutNotice : String := "\n[Connection timeout. Retrying...]\n"

/-- Fragment yielded before each connection-error retry sleep (line 71). -/
def connNotice : String := "\n[Connection issue. Retrying...]\n"

/-- Final user-facing fragment after the retry budget is exhausted (lines 65 and 76). -/
def exhaustedMsg : String :=
  "\nSorry, I\x27m having trouble connecting to my AI services right now. Please try again in a moment."

/-- Fragment yielded on a non-retriable `openai.APIError` (line 80). -/
def apiErrorMsg (s : String) : String :=
  "\nSorry, there was an error with the AI service: " ++ s

/-- Fragment yielded on any other unexpected exception (line 85). -/
def unexpectedErrorMsg (s : String) : String :=
  "\nSorry, an unexpected error occurred: " ++ s

/-- The `while retry_count <= max_retries` loop of `generate_ai_response`
(`ai_service.py` lines 28-86).  `provider attempt` is the outcome of the
`attempt`-th request.  `retriesLeft` is `max_retries - retry_count` on entry
to the loop body (so `0` means a further timeout exhausts the budget), and
`retryDelayMs` is the current `retry_delay` in milliseconds.  On a timeout or
connection error with budget remaining the generator yields a retry notice,
sleeps `retry_delay`, doubles the delay and loops; with no budget remaining it
yields `exhaustedMsg` and the loop condition then fails.  On an `APIError` or
unexpected error it yields one descriptive fragment and breaks.  On success it
yields the stream chunks and returns. -/
def aiLoop (provider : Nat → UpstreamAttempt) (attempt retriesLeft retryDelayMs : Nat) :
    List StreamEvent :=
  match provider attempt with
  | .success chunks => chunks.map StreamEvent.yieldFrag
  | .timeout =>
    match retriesLeft with
    | r + 1 =>
      .yieldFrag timeoutNotice :: .sleep retryDelayMs ::
        aiLoop provider (attempt + 1) r (retryDelayMs * 2)
    | 0 => [.yieldFrag exhaustedMsg]
  | .connError =>
    match retriesLeft with
    | r + 1 =>
      .yieldFrag connNotice :: .sleep retryDelayMs ::
        aiLoop provider (attempt + 1) r (retryDelayMs * 2)
    | 0 => [.yieldFrag exhaustedMsg]
  | .apiError m => [.yieldFrag (apiErrorMsg m)]
  | .unexpected m => [.yieldFrag (unexpectedErrorMsg m)]

/-- `generate_ai_response` (`ai_service.py` lines 14-86): `max_retries = 3`,
`retry_count = 0`, `retry_delay = 1` second.  The `message` is the user text
sent to the provider; the provider oracle abstracts the network's behaviour. -/
def generate_ai_response (provider : Nat → UpstreamAttempt) (_message : String) :
    List StreamEvent :=
  aiLoop provider 0 3 1000

/-- The text fragments yielded by a stream-event list (what the relay's
`async for` loop consumes). -/
def yieldsOf (evs : List StreamEvent) : List String :=
  evs.filterMap fun e =>
    match e with
    | .yieldFrag s => some s
    | .sleep _ => none

/-! ## Relay buffer & publisher (`telegram_bot.py`, `handle_message`) -/

/-- Outcome of one downstream send/edit call (`reply_text` / `edit_text`):
success, `RetryAfter` with the platform wait hint in seconds, a transient
`TimedOut`/`NetworkError`, or any other exception. -/
inductive PublishOutcome where
  | ok
  | rateLimited (retryAfterSec : Nat)
  | netError
  | fatal
deriving DecidableEq

/-- One observable event of the relay: a `reply_text` attempt (send a new
message), an `edit_text` attempt on the bound processing message, or an
`asyncio.sleep` (ms).  Each publish attempt records the text sent and the
outcome the downstream returned for it. -/
inductive RelayEvent where
  | reply (text : String) (outcome : PublishOutcome)
  | edit (text : String) (outcome : PublishOutcome)
  | sleep (ms : Nat)
deriving DecidableEq

/-- The initial processing message (`telegram_bot.py` line 52). -/
def thinkingMsg : String := "Thinking..."

/-- Fixed message published when the stream yields nothing (line 92). -/
def noRespMsg : String := "I couldn\x27t generate a response. Please try again."

/-- Message published by the outer exception handler (line 96). -/
def sorryMsg : String := "Sorry, an error occurred while processing your request."

/-- Result of the fragment-consumption loop of `handle_message`
(`telegram_bot.py` lines 59-78): the accumulated `full_response`, the index
of the next downstream call, whether an exception escaped the loop (aborting
the relay into the outer `except` at line 94), and the trace of downstream
calls and sleeps the loop performed. -/
structure LoopResult where
  full : String
  idx : Nat
  aborted : Bool
  trace : List RelayEvent
deriving DecidableEq

/-- The `async for response_chunk in generate_ai_response(...)` loop
(`telegram_bot.py` lines 59-78).  `env n` is the outcome of the `n`-th
downstream call of the whole handler.  Each chunk is appended to
`full_response`; when the new length is an exact multiple of 20 the loop
attempts `edit_text(full_response)`:
 - on success it sleeps 0.5 s and continues;
 - on `RetryAfter e` it sleeps `e.retry_after` seconds and retries the same
   edit; if the retry succeeds it continues (no pacing sleep), and if the
   retry raises anything the exception escapes to the outer handler (the
   relay aborts);
 - on `TimedOut`/`NetworkError` it sleeps 1 s and continues;
 - on any other exception it logs and continues. -/
def runChunks (env : Nat → PublishOutcome) : List String → String → Nat → LoopResult
  | [], full, idx => ⟨full, idx, false, []⟩
  | c :: cs, full, idx =>
    let full' := full ++ c
    if full'.length % 20 = 0 then
      match env idx with
      | .ok =>
        let r := runChunks env cs full' (idx + 1)
        ⟨r.full, r.idx, r.aborted, .edit full' .ok :: .sleep 500 :: r.trace⟩
      | .rateLimited w =>
        match env (idx + 1) with
        | .ok =>
          let r := runChunks env cs full' (idx + 2)
          ⟨r.full, r.idx, r.aborted,
            .edit full' (.rateLimited w) :: .sleep (1000 * w) :: .edit full' .ok :: r.trace⟩
        | o2 =>
          ⟨full', idx + 2, true,
            [.edit full' (.rateLimited w), .sleep (1000 * w), .edit full' o2]⟩
      | .netError =>
        let r := runChunks env cs full' (idx + 1)
        ⟨r.full, r.idx, r.aborted, .edit full' .netError :: .sleep 1000 :: r.trace⟩
      | .fatal =>
        let r := runChunks env cs full' (idx + 1)
        ⟨r.full, r.idx, r.aborted, .edit full' .fatal :: r.trace⟩
    else
      runChunks env cs full' idx

/-- The relay body of `handle_message` (`telegram_bot.py` lines 52-96) on a
given fragment list.  It first sends the "Thinking..." reply (line 52,
outside the `try`: if that send fails the handler dies immediately), then
consumes the fragments via `runChunks`, then:
 - if the loop aborted, the outer `except` (line 94) edits in `sorryMsg`;
 - else if `full_response` is non-empty, attempts one final
   `edit_text(full_response)` (line 83); if that raises, falls back to
   `reply_text(full_response)` (line 88); a failure of both is only logged;
 - else edits in the fixed `noRespMsg` (line 92); if that raises, the outer
   `except` edits in `sorryMsg`. -/
def relay (env : Nat → PublishOutcome) (chunks : List String) : List RelayEvent :=
  match env 0 with
  | .ok =>
    let r := runChunks env chunks "" 1
    if r.aborted then
      .reply thinkingMsg .ok :: r.trace ++ [.edit sorryMsg (env r.idx)]
    else if r.full = "" then
      match env r.idx with
      | .ok => .reply thinkingMsg .ok :: r.trace ++ [.edit noRespMsg .ok]
      | o =>
        .reply thinkingMsg .ok :: r.trace ++
          [.edit noRespMsg o, .edit sorryMsg (env (r.idx + 1))]
    else
      match env r.idx with
      | .ok => .reply thinkingMsg .ok :: r.trace ++ [.edit r.full .ok]
      | o =>
        .reply thinkingMsg .ok :: r.trace ++
          [.edit r.full o, .reply r.full (env (r.idx + 1))]
  | o0 => [.reply thinkingMsg o0]

/-- An incoming chat message: `update.message.text` (`None` when absent). -/
structure Message where
  text : Option String
deriving DecidableEq

/-- An incoming update: `update.message` (`None` when absent). -/
structure Update where
  message : Option Message
deriving DecidableEq

/-- `TelegramBot.handle_message` (`telegram_bot.py` lines 40-96).  The guard
at lines 42-43 returns immediately when the update has no message or the
message text is missing or empty (Python falsiness of `""`); otherwise the
handler streams `generate_ai_response(user_message)` through the relay.  The
returned trace is the complete list of downstream calls and sleeps; an empty
trace means the handler performed no downstream call, opened no upstream
stream, and mutated no state. -/
def handle_message (env : Nat → PublishOutcome) (provider : Nat → UpstreamAttempt)
    (upd : Update) : List RelayEvent :=
  match upd.message with
  | none => []
  | some m =>
    match m.text with
    | none => []
    | some t =>
      if t = "" then [] else relay env (yieldsOf (generate_ai_response provider t))

/-- Concatenation of a fragment list in arrival order (the reference text the
relay is meant to publish). -/
def concatAll : List String → String
  | [] => ""
  | c :: cs => c ++ concatAll cs

/-- The text of a publish attempt when it succeeded. -/
def eventPub : RelayEvent → Option String
  | .reply t .ok => some t
  | .edit t .ok => some t
  | _ => none

/-- The text of the last successful publish of a trace: what the user is left
seeing after the relay finishes. -/
def lastPublished (tr : List RelayEvent) : Option String :=
  tr.foldl
    (fun acc e =>
      match eventPub e with
      | some t => some t
      | none => acc)
    none

/-- The texts of all `edit_text` attempts of a trace, in order. -/
def editTexts (tr : List RelayEvent) : List String :=
  tr.filterMap fun e =>
    match e with
    | .edit t _ => some t
    | _ => none

/-- The running accumulated states: for fragments `c₁, c₂, …` starting from
`full`, the list `full ++ c₁, full ++ c₁ ++ c₂, …`. -/
def accumStates (full : String) : List String → List String
  | [] => []
  | c :: cs => (full ++ c) :: accumStates (full ++ c) cs

/-! ## Session lifecycle (`telegram_bot.py`, `TelegramBot`) -/

/-- The downstream platform session object built by
`Application.builder()...build()`; abstracted to an identifier. -/
structure Application where
  id : Nat
deriving DecidableEq

/-- The `TelegramBot` instance state (`telegram_bot.py` lines 22-26):
`self.application` (`None` until setup) plus the retry configuration fields. -/
structure TelegramBot where
  application : Option Application
  max_retries : Nat
  retry_delay : Nat
deriving DecidableEq

/-- `TelegramBot.__init__` (`telegram_bot.py` lines 22-26). -/
def TelegramBot.init : TelegramBot := ⟨none, 5, 3⟩

/-- `TelegramBot.setup_application` (`telegram_bot.py` lines 112-138).  If
`self.application` already exists it is returned unchanged with no side
effects (lines 114-116); otherwise a fresh application is built, handlers
are attached, and it is stored.  `fresh` stands for the application the
builder would produce. -/
def setup_application (bot : TelegramBot) (fresh : Application) :
    TelegramBot × Application :=
  match bot.application with
  | some app => (bot, app)
  | none => ({ bot with application := some fresh }, fresh)

/-- `TelegramBot.shutdown` (`telegram_bot.py` lines 140-153).  Under the
shutdown lock: if no application exists, nothing happens; otherwise the
updater is stopped and `application.shutdown()` awaited inside a `try` whose
`except` only logs, and the `finally` clause sets `self.application = None`
unconditionally.  `stopRaises` / `disconnectRaises` say whether
`updater.stop()` / `application.shutdown()` raise; because of the
`finally`, the resulting state does not depend on them. -/
def shutdown (bot : TelegramBot) (stopRaises disconnectRaises : Bool) : TelegramBot :=
  match bot.application with
  | none => bot
  | some _ => { bot with application := none }

/-! ## Webhook endpoint (`main.py`, `webhook`) -/

/-- The settings the webhook handler consults (`config.py`):
`settings.is_production` and `settings.webhook_secret`. -/
structure WebhookSettings where
  isProduction : Bool
  webhookSecret : String
deriving DecidableEq

/-- The request body as the handler experiences it: `request.json()` raises
`json.JSONDecodeError` (malformed), or parses, in which case
`application.process_update` either succeeds or raises. -/
inductive WebhookBody where
  | malformed
  | wellFormed (processOk : Bool)
deriving DecidableEq

/-- An incoming webhook request: the `X-Telegram-Bot-Api-Secret-Token`
header (`none` when absent) and the body. -/
structure WebhookRequest where
  secretHeader : Option String
  body : WebhookBody
deriving DecidableEq

/-- An HTTP response: status code and the `status` field of the JSON body. -/
structure HttpResponse where
  statusCode : Nat
  status : String
deriving DecidableEq

/-- The `POST /webhook` handler (`main.py` lines 60-97).  Inside one `try`:
the secret check runs first and, in production mode with a mismatched or
absent header, executes `raise HTTPException(status_code=401)` — but that
exception is raised inside the `try` block whose blanket `except Exception`
(line 95) catches it and converts it to a 500 JSON response, so the client
receives 500, not 401.  Then `request.json()` is parsed (malformed → the
`except json.JSONDecodeError` returns 400); a missing application returns
500; `process_update` raising returns 500; otherwise 200 `{"status":"ok"}`.
No branch mutates the bot state, which is returned unchanged. -/
def webhook (cfg : WebhookSettings) (bot : TelegramBot) (req : WebhookRequest) :
    HttpResponse × TelegramBot :=
  if cfg.isProduction && !(req.secretHeader == some cfg.webhookSecret) then
    (⟨500, "error"⟩, bot)
  else
    match req.body with
    | .malformed => (⟨400, "error"⟩, bot)
    | .wellFormed processOk =>
      match bot.application with
      | none => (⟨500, "error"⟩, bot)
      | some _ => if processOk then (⟨200, "ok"⟩, bot) else (⟨500, "error"⟩, bot)

/-! ## Helper lemmas -/

/-- When the consumption loop does not abort, the accumulated `full_response`
at its end is the starting buffer followed by every fragment in arrival order:
no loss, no reordering, no duplication, no normalization, no trimming. -/
theorem runChunks_full_of_not_aborted (env : Nat → PublishOutcome) (chunks : List String) :
    ∀ full idx, (runChunks env chunks full idx).aborted = false →
      (runChunks env chunks full idx).full = full ++ concatAll chunks := by
  induction chunks with
  | nil =>
    intro full idx _
    simp [runChunks, concatAll, String.append_empty]
  | cons c cs ih =>
    intro full idx hab
    rw [concatAll, ← String.append_assoc]
    by_cases hb : (full ++ c).length % 20 = 0
    · cases ho : env idx with
      | ok =>
        simp only [runChunks, hb, ho, reduceIte] at hab ⊢
        exact ih (full ++ c) (idx + 1) hab
      | rateLimited w =>
        cases ho2 : env (idx + 1) with
        | ok =>
          simp only [runChunks, hb, ho, ho2, reduceIte] at hab ⊢
          exact ih (full ++ c) (idx + 2) hab
        | rateLimited w2 =>
          simp only [runChunks, hb, ho, ho2, reduceIte] at hab
          exact Bool.noConfusion hab
        | netError =>
          simp only [runChunks, hb, ho, ho2, reduceIte] at hab
          exact Bool.noConfusion hab
        | fatal =>
          simp only [runChunks, hb, ho, ho2, reduceIte] at hab
          exact Bool.noConfusion hab
      | netError =>
        simp only [runChunks, hb, ho, reduceIte] at hab ⊢
        exact ih (full ++ c) (idx + 1) hab
      | fatal =>
        simp only [runChunks, hb, ho, reduceIte] at hab ⊢
        exact ih (full ++ c) (idx + 1) hab
    · simp only [runChunks, hb, reduceIte] at hab ⊢
      exact ih (full ++ c) idx hab

/-- The last successful publish of a trace ending in a successful attempt is
that attempt's text. -/
theorem lastPublished_concat_ok (tr : List RelayEvent) (e : RelayEvent) (t : String)
    (he : eventPub e = some t) : lastPublished (tr ++ [e]) = some t := by
  simp [lastPublished, List.foldl_append, he]

/-- An edit attempt contributes its text to `editTexts`. -/
theorem editTexts_edit_cons (t : String) (o : PublishOutcome) (tr : List RelayEvent) :
    editTexts (.edit t o :: tr) = t :: editTexts tr := rfl

/-- A sleep contributes nothing to `editTexts`. -/
theorem editTexts_sleep_cons (ms : Nat) (tr : List RelayEvent) :
    editTexts (.sleep ms :: tr) = editTexts tr := rfl

/-- A reply attempt contributes nothing to `editTexts`. -/
theorem editTexts_reply_cons (t : String) (o : PublishOutcome) (tr : List RelayEvent) :
    editTexts (.reply t o :: tr) = editTexts tr := rfl

/-- The last successful publish of a trace whose final two events end in a
successful attempt is that attempt's text, whatever the penultimate event. -/
theorem lastPublished_concat2_ok (tr : List RelayEvent) (x e : RelayEvent) (t : String)
    (he : eventPub e = some t) : lastPublished (tr ++ [x, e]) = some t := by
  simp [lastPublished, List.foldl_append, he]

/-- Variant of `lastPublished_concat_ok` with an explicit leading event. -/
theorem lastPublished_cons_concat_ok (a : RelayEvent) (tr : List RelayEvent)
    (e : RelayEvent) (t : String) (he : eventPub e = some t) :
    lastPublished (a :: (tr ++ [e])) = some t := by
  simp [lastPublished, List.foldl_append, he]

/-- Variant of `lastPublished_concat2_ok` with an explicit leading event. -/
theorem lastPublished_cons_concat2_ok (a : RelayEvent) (tr : List RelayEvent)
    (x e : RelayEvent) (t : String) (he : eventPub e = some t) :
    lastPublished (a :: (tr ++ [x, e])) = some t := by
  simp [lastPublished, List.foldl_append, he]

/-! ## Claim theorems -/

/-- C1 counterexample: for the empty fragment sequence (all downstream calls
succeeding, so no terminal failure), the final published text is the fixed
no-response message, not the (empty) concatenation of the fragments. -/
theorem c1_empty_sequence_counterexample :
    lastPublished (relay (fun _ => .ok) []) = some noRespMsg ∧
    some noRespMsg ≠ some (concatAll []) := by
  exact ⟨rfl, by decide⟩

/-- C1 (amended): for every fragment sequence whose concatenation is
non-empty, if the consumption loop does not abort and the final flush does
not fail terminally (the final edit succeeds, or it fails and the fallback
send succeeds), the final published text is exactly the concatenation of all
fragments in arrival order — no loss, no reordering, no duplication, no
normalization, no trimming. -/
theorem c1_relay_publishes_concatenation (env : Nat → PublishOutcome)
    (chunks : List String) (h0 : env 0 = .ok)
    (hab : (runChunks env chunks "" 1).aborted = false)
    (hne : concatAll chunks ≠ "")
    (hfl : env (runChunks env chunks "" 1).idx = .ok ∨
           env ((runChunks env chunks "" 1).idx + 1) = .ok) :
    lastPublished (relay env chunks) = some (concatAll chunks) := by
  have hfull : (runChunks env chunks "" 1).full = concatAll chunks := by
    simpa [String.empty_append] using
      runChunks_full_of_not_aborted env chunks "" 1 hab
  have hne' : (runChunks env chunks "" 1).full ≠ "" := by
    rw [hfull]; exact hne
  cases ho : env (runChunks env chunks "" 1).idx with
  | ok =>
    simp only [relay, h0, hab, Bool.false_eq_true, if_false, ho]
    rw [if_neg hne']
    exact (lastPublished_cons_concat_ok (RelayEvent.reply thinkingMsg .ok)
      (runChunks env chunks "" 1).trace
      (RelayEvent.edit (runChunks env chunks "" 1).full .ok)
      ((runChunks env chunks "" 1).full) rfl).trans (congrArg some hfull)
  | rateLimited w =>
    rcases hfl with hfl | hfl2
    · rw [ho] at hfl; exact absurd hfl (by simp)
    · simp only [relay, h0, hab, Bool.false_eq_true, if_false, ho, hfl2]
      rw [if_neg hne']
      exact (lastPublished_cons_concat2_ok (RelayEvent.reply thinkingMsg .ok)
        (runChunks env chunks "" 1).trace _
        (RelayEvent.reply (runChunks env chunks "" 1).full .ok)
        ((runChunks env chunks "" 1).full) rfl).trans (congrArg some hfull)
  | netError =>
    rcases hfl with hfl | hfl2
    · rw [ho] at hfl; exact absurd hfl (by simp)
    · simp only [relay, h0, hab, Bool.false_eq_true, if_false, ho, hfl2]
      rw [if_neg hne']
      exact (lastPublished_cons_concat2_ok (RelayEvent.reply thinkingMsg .ok)
        (runChunks env chunks "" 1).trace _
        (RelayEvent.reply (runChunks env chunks "" 1).full .ok)
        ((runChunks env chunks "" 1).full) rfl).trans (congrArg some hfull)
  | fatal =>
    rcases hfl with hfl | hfl2
    · rw [ho] at hfl; exact absurd hfl (by simp)
    · simp only [relay, h0, hab, Bool.false_eq_true, if_false, ho, hfl2]
      rw [if_neg hne']
      exact (lastPublished_cons_concat2_ok (RelayEvent.reply thinkingMsg .ok)
        (runChunks env chunks "" 1).trace _
        (RelayEvent.reply (runChunks env chunks "" 1).full .ok)
        ((runChunks env chunks "" 1).full) rfl).trans (congrArg some hfull)

/-- C1 witness: the amended theorem applied to the all-ok downstream and the
fragments "Hi", " there", "!". -/
theorem c1_relay_publishes_concatenation_witness :
    lastPublished (relay (fun _ => .ok) ["Hi", " there", "!"]) =
      some (concatAll ["Hi", " there", "!"]) :=
  c1_relay_publishes_concatenation (fun _ => .ok) ["Hi", " there", "!"]
    rfl rfl (by decide) (Or.inl rfl)

/-- The downstream environment of the C4 counterexample: the first periodic
edit and its retry are both rate-limited; every other call succeeds. -/
def rlTwiceEnv : Nat → PublishOutcome :=
  fun n => if n = 1 || n = 2 then .rateLimited 7 else .ok

/-- C4 counterexample: when the periodic publish is rate-limited and the
retried publish is rate-limited again, the retry's exception escapes the
inner handler and aborts the relay: the generic error message is published
over the content and the accumulated text is never republished or flushed.
The rate limit is therefore not always absorbed locally — it surfaces to the
user as an error and loses the content. -/
theorem c4_rate_limited_retry_counterexample :
    relay rlTwiceEnv ["aaaaaaaaaaaaaaaaaaaa"] =
      [.reply thinkingMsg .ok,
       .edit "aaaaaaaaaaaaaaaaaaaa" (.rateLimited 7), .sleep 7000,
       .edit "aaaaaaaaaaaaaaaaaaaa" (.rateLimited 7),
       .edit sorryMsg .ok] ∧
    lastPublished (relay rlTwiceEnv ["aaaaaaaaaaaaaaaaaaaa"]) = some sorryMsg := by
  exact ⟨rfl, rfl⟩

/-- C4 (amended): when a periodic publish is rate-limited with wait hint `w`
seconds, the publisher sleeps `w` seconds (at least the platform-specified
duration) and then retries the same publish with the same accumulated content
— the content is neither lost nor duplicated by the retry.  If the retry
succeeds the relay continues exactly as before (the rate limit is absorbed
and nothing surfaces); if the retry itself fails the loop aborts, after which
the outer handler surfaces a generic error. -/
theorem c4_rate_limit_sleep_and_retry (env : Nat → PublishOutcome) (c : String)
    (cs : List String) (full : String) (idx w : Nat)
    (hb : (full ++ c).length % 20 = 0) (hrl : env idx = .rateLimited w) :
    ∃ tail,
      (runChunks env (c :: cs) full idx).trace =
        .edit (full ++ c) (.rateLimited w) :: .sleep (1000 * w) ::
          .edit (full ++ c) (env (idx + 1)) :: tail ∧
      (env (idx + 1) = .ok →
        tail = (runChunks env cs (full ++ c) (idx + 2)).trace ∧
        (runChunks env (c :: cs) full idx).full =
          (runChunks env cs (full ++ c) (idx + 2)).full ∧
        (runChunks env (c :: cs) full idx).aborted =
          (runChunks env cs (full ++ c) (idx + 2)).aborted) ∧
      (env (idx + 1) ≠ .ok →
        tail = [] ∧ (runChunks env (c :: cs) full idx).aborted = true) := by
  cases ho2 : env (idx + 1) with
  | ok =>
    refine ⟨(runChunks env cs (full ++ c) (idx + 2)).trace, ?_, ?_, ?_⟩ <;>
      simp only [runChunks, hb, hrl, ho2, reduceIte] <;> simp
  | rateLimited w2 =>
    refine ⟨[], ?_, ?_, ?_⟩ <;> simp only [runChunks, hb, hrl, ho2, reduceIte] <;> simp
  | netError =>
    refine ⟨[], ?_, ?_, ?_⟩ <;> simp only [runChunks, hb, hrl, ho2, reduceIte] <;> simp
  | fatal =>
    refine ⟨[], ?_, ?_, ?_⟩ <;> simp only [runChunks, hb, hrl, ho2, reduceIte] <;> simp

/-- C4 witness: the amended theorem applied to a 20-character fragment whose
periodic publish is rate-limited with a 2-second hint and whose retry
succeeds. -/
theorem c4_rate_limit_sleep_and_retry_witness :
    ∃ tail,
      (runChunks (fun n => if n = 1 then .rateLimited 2 else .ok)
          ["aaaaaaaaaaaaaaaaaaaa"] "" 1).trace =
        .edit ("" ++ "aaaaaaaaaaaaaaaaaaaa") (.rateLimited 2) :: .sleep (1000 * 2) ::
          .edit ("" ++ "aaaaaaaaaaaaaaaaaaaa")
            ((fun n => if n = 1 then PublishOutcome.rateLimited 2 else .ok) (1 + 1)) :: tail ∧
      ((fun n => if n = 1 then PublishOutcome.rateLimited 2 else .ok) (1 + 1) = .ok →
        tail = (runChunks (fun n => if n = 1 then .rateLimited 2 else .ok) []
            ("" ++ "aaaaaaaaaaaaaaaaaaaa") (1 + 2)).trace ∧
        (runChunks (fun n => if n = 1 then .rateLimited 2 else .ok)
            ["aaaaaaaaaaaaaaaaaaaa"] "" 1).full =
          (runChunks (fun n => if n = 1 then .rateLimited 2 else .ok) []
            ("" ++ "aaaaaaaaaaaaaaaaaaaa") (1 + 2)).full ∧
        (runChunks (fun n => if n = 1 then .rateLimited 2 else .ok)
            ["aaaaaaaaaaaaaaaaaaaa"] "" 1).aborted =
          (runChunks (fun n => if n = 1 then .rateLimited 2 else .ok) []
            ("" ++ "aaaaaaaaaaaaaaaaaaaa") (1 + 2)).aborted) ∧
      ((fun n => if n = 1 then PublishOutcome.rateLimited 2 else .ok) (1 + 1) ≠ .ok →
        tail = [] ∧
        (runChunks (fun n => if n = 1 then .rateLimited 2 else .ok)
            ["aaaaaaaaaaaaaaaaaaaa"] "" 1).aborted = true) :=
  c4_rate_limit_sleep_and_retry (fun n => if n = 1 then .rateLimited 2 else .ok)
    "aaaaaaaaaaaaaaaaaaaa" [] "" 1 2 (by decide) rfl

/-- C6: when the stream completes with non-empty accumulated text and the
loop did not abort, the relay attempts exactly one final edit carrying the
full accumulated text; if that edit fails it falls back to exactly one send
of a new message with the same full text; and in every case the trace ends
there — a failure of both attempts is only logged, nothing further happens,
and no exception escapes the relay, so the user keeps the last successfully
published content. -/
theorem c6_final_flush_fallback (env : Nat → PublishOutcome) (chunks : List String)
    (h0 : env 0 = .ok)
    (hab : (runChunks env chunks "" 1).aborted = false)
    (hne : (runChunks env chunks "" 1).full ≠ "") :
    relay env chunks =
      .reply thinkingMsg .ok :: (runChunks env chunks "" 1).trace ++
        (match env (runChunks env chunks "" 1).idx with
         | .ok => [.edit (runChunks env chunks "" 1).full .ok]
         | o => [.edit (runChunks env chunks "" 1).full o,
                 .reply (runChunks env chunks "" 1).full
                   (env ((runChunks env chunks "" 1).idx + 1))]) := by
  cases ho : env (runChunks env chunks "" 1).idx <;>
    (simp only [relay, h0, hab, Bool.false_eq_true, if_false, ho]
     rw [if_neg hne])

/-- C6 witness: the theorem applied to a downstream that rejects the final
edit (so the fallback send carries the full text) and a single 21-character
fragment (no periodic publish). -/
theorem c6_final_flush_fallback_witness :
    relay (fun n => if n = 1 then .fatal else .ok) ["aaaaaaaaaaaaaaaaaaaaa"] =
      .reply thinkingMsg .ok ::
        (runChunks (fun n => if n = 1 then .fatal else .ok)
          ["aaaaaaaaaaaaaaaaaaaaa"] "" 1).trace ++
        (match (fun n => if n = 1 then PublishOutcome.fatal else .ok)
            (runChunks (fun n => if n = 1 then .fatal else .ok)
              ["aaaaaaaaaaaaaaaaaaaaa"] "" 1).idx with
         | .ok => [.edit (runChunks (fun n => if n = 1 then .fatal else .ok)
             ["aaaaaaaaaaaaaaaaaaaaa"] "" 1).full .ok]
         | o => [.edit (runChunks (fun n => if n = 1 then .fatal else .ok)
             ["aaaaaaaaaaaaaaaaaaaaa"] "" 1).full o,
           .reply (runChunks (fun n => if n = 1 then .fatal else .ok)
               ["aaaaaaaaaaaaaaaaaaaaa"] "" 1).full
             ((fun n => if n = 1 then PublishOutcome.fatal else .ok)
               ((runChunks (fun n => if n = 1 then .fatal else .ok)
                 ["aaaaaaaaaaaaaaaaaaaaa"] "" 1).idx + 1))]) :=
  c6_final_flush_fallback (fun n => if n = 1 then .fatal else .ok)
    ["aaaaaaaaaaaaaaaaaaaaa"] rfl rfl (by decide)

/-- A provider that times out on 3 consecutive attempts and succeeds on the
4th. -/
def timeoutThriceProvider : Nat → UpstreamAttempt :=
  fun n => if n < 3 then .timeout else .success ["Hi"]

/-- C2 counterexample: a provider that times out on 3 consecutive attempts
does not make the stream end in the failure fragment — after the third
"retrying" notice the client makes a 4th attempt, and when that attempt
succeeds the stream yields its content instead of the failure message.  So 3
consecutive timeouts produce 3 notices and a further retry, not 3 notices
followed by the failure fragment and termination. -/
theorem c2_three_timeouts_counterexample :
    generate_ai_response timeoutThriceProvider "Hello" =
      [.yieldFrag timeoutNotice, .sleep 1000, .yieldFrag timeoutNotice, .sleep 2000,
       .yieldFrag timeoutNotice, .sleep 4000, .yieldFrag "Hi"] ∧
    generate_ai_response timeoutThriceProvider "Hello" ≠
      [.yieldFrag timeoutNotice, .sleep 1000, .yieldFrag timeoutNotice, .sleep 2000,
       .yieldFrag timeoutNotice, .sleep 4000, .yieldFrag exhaustedMsg] := by
  exact ⟨rfl, by decide⟩

/-- C2 (amended): if the provider times out on the initial attempt and on all
3 retries (4 consecutive timed-out attempts), the stream yields exactly 3
"retrying" notice fragments, one before each backoff sleep of 1 s, 2 s and
4 s, followed by exactly one final user-facing failure fragment, and then
terminates without raising and with no further attempts. -/
theorem c2_timeout_exhaustion (provider : Nat → UpstreamAttempt) (msg : String)
    (h0 : provider 0 = .timeout) (h1 : provider 1 = .timeout)
    (h2 : provider 2 = .timeout) (h3 : provider 3 = .timeout) :
    generate_ai_response provider msg =
      [.yieldFrag timeoutNotice, .sleep 1000, .yieldFrag timeoutNotice, .sleep 2000,
       .yieldFrag timeoutNotice, .sleep 4000, .yieldFrag exhaustedMsg] := by
  simp [generate_ai_response, aiLoop, h0, h1, h2, h3]

/-- C2 witness: the amended theorem applied to the always-timing-out
provider. -/
theorem c2_timeout_exhaustion_witness :
    generate_ai_response (fun _ => .timeout) "Hello" =
      [.yieldFrag timeoutNotice, .sleep 1000, .yieldFrag timeoutNotice, .sleep 2000,
       .yieldFrag timeoutNotice, .sleep 4000, .yieldFrag exhaustedMsg] :=
  c2_timeout_exhaustion (fun _ => .timeout) "Hello" rfl rfl rfl rfl

/-- C3 counterexample: with fragments of lengths 19 and 3 the accumulated
length passes the 20-character boundary (19 < 20 ≤ 22) on the second
fragment, yet no publish attempt occurs before the next step — the only edit
of the whole relay is the final flush, because the code publishes only when
the length is an exact multiple of 20. -/
theorem c3_pass_without_publish_counterexample :
    relay (fun _ => .ok) ["aaaaaaaaaaaaaaaaaaa", "aaa"] =
      [.reply thinkingMsg .ok, .edit "aaaaaaaaaaaaaaaaaaaaaa" .ok] ∧
    ("aaaaaaaaaaaaaaaaaaa" : String).length < 20 ∧
    20 ≤ ("aaaaaaaaaaaaaaaaaaaaaa" : String).length := by
  exact ⟨rfl, by decide, by decide⟩

/-- C3 (amended): with every downstream call succeeding, the intermediate
edit attempts of the consumption loop carry exactly those accumulated states
whose length is an exact multiple of 20, in order; a fragment that makes the
length pass a multiple of 20 without landing on it triggers no publish. -/
theorem c3_publish_on_exact_multiples (env : Nat → PublishOutcome)
    (hok : ∀ i, env i = .ok) (chunks : List String) :
    ∀ full idx, editTexts (runChunks env chunks full idx).trace =
      (accumStates full chunks).filter (fun s => s.length % 20 == 0) := by
  induction chunks with
  | nil =>
    intro full idx
    simp [runChunks, accumStates, editTexts]
  | cons c cs ih =>
    intro full idx
    by_cases hb : (full ++ c).length % 20 = 0
    · simp only [runChunks, hb, hok idx, reduceIte, accumStates, List.filter_cons,
        editTexts_edit_cons, editTexts_sleep_cons, beq_iff_eq, if_true]
      exact congrArg (List.cons (full ++ c)) (ih (full ++ c) (idx + 1))
    · have hb' : (((full ++ c).length % 20 == 0) : Bool) = false := by
        simpa using hb
      simp only [runChunks, hb, reduceIte, accumStates, List.filter_cons, hb',
        Bool.false_eq_true, if_false]
      exact ih (full ++ c) idx

/-- C3 witness: the amended theorem applied to an all-ok downstream and one
20-character fragment. -/
theorem c3_publish_on_exact_multiples_witness :
    editTexts (runChunks (fun _ => .ok) ["aaaaaaaaaaaaaaaaaaaa"] "" 1).trace =
      (accumStates "" ["aaaaaaaaaaaaaaaaaaaa"]).filter (fun s => s.length % 20 == 0) :=
  c3_publish_on_exact_multiples (fun _ => .ok) (fun _ => rfl)
    ["aaaaaaaaaaaaaaaaaaaa"] "" 1

/-- C5: evaluation of the webhook endpoint.  A well-formed authorized request
returns 200 `{"status":"ok"}`; malformed JSON returns 400 and leaves the bot
state unchanged; but in production mode a request with a wrong secret header
returns 500 (state unchanged), not the specified 401: the
`HTTPException(401)` is raised inside the `try` block and swallowed by its
blanket `except Exception`, which converts it to a 500 response. -/
theorem c5_webhook_unauthorized_gets_500 :
    (webhook ⟨true, "s3cr3t"⟩ ⟨some ⟨1⟩, 5, 3⟩ ⟨some "s3cr3t", .wellFormed true⟩).1 =
      ⟨200, "ok"⟩ ∧
    webhook ⟨true, "s3cr3t"⟩ ⟨some ⟨1⟩, 5, 3⟩ ⟨some "s3cr3t", .malformed⟩ =
      (⟨400, "error"⟩, ⟨some ⟨1⟩, 5, 3⟩) ∧
    webhook ⟨true, "s3cr3t"⟩ ⟨some ⟨1⟩, 5, 3⟩ ⟨some "wrong", .wellFormed true⟩ =
      (⟨500, "error"⟩, ⟨some ⟨1⟩, 5, 3⟩) ∧
    webhook ⟨true, "s3cr3t"⟩ ⟨some ⟨1⟩, 5, 3⟩ ⟨none, .wellFormed true⟩ =
      (⟨500, "error"⟩, ⟨some ⟨1⟩, 5, 3⟩) := by
  refine ⟨rfl, rfl, ?_, rfl⟩
  decide

/-- C7: if the upstream stream yields zero fragments, the downstream receives
(after the initial "Thinking..." send that binds the edit target) exactly one
edit, carrying the fixed no-response message; no edit carrying response
content is ever made. -/
theorem c7_empty_stream_fixed_message (env : Nat → PublishOutcome)
    (h0 : env 0 = .ok) (h1 : env 1 = .ok) :
    relay env [] = [.reply thinkingMsg .ok, .edit noRespMsg .ok] := by
  simp [relay, runChunks, h0, h1]

/-- C7 witness: the theorem applied to the all-ok downstream. -/
theorem c7_empty_stream_fixed_message_witness :
    relay (fun _ => .ok) [] = [.reply thinkingMsg .ok, .edit noRespMsg .ok] :=
  c7_empty_stream_fixed_message (fun _ => .ok) rfl rfl

/-- C8: `shutdown` always leaves the application handle cleared (the
Uninitialized lifecycle state), even when stopping the update receiver or the
underlying disconnect call raises an internal error — the `finally` clause
clears it unconditionally — and calling it when already uninitialized is a
no-op. -/
theorem c8_shutdown_always_uninitialized (bot : TelegramBot)
    (stopRaises disconnectRaises : Bool) :
    (shutdown bot stopRaises disconnectRaises).application = none ∧
    (bot.application = none → shutdown bot stopRaises disconnectRaises = bot) := by
  cases h : bot.application <;> simp [shutdown, h]

/-- C8 witness: shutting down a freshly initialized (application-less) bot
with both internal calls raising is a no-op. -/
theorem c8_shutdown_always_uninitialized_witness :
    shutdown TelegramBot.init true true = TelegramBot.init :=
  (c8_shutdown_always_uninitialized TelegramBot.init true true).2 rfl

/-- C9: calling `setup_application` twice in a row without an intervening
shutdown creates only one session: the second call returns exactly the state
and application produced by the first call — the existing session object
unchanged, with no side effects. -/
theorem c9_setup_idempotent (bot : TelegramBot) (fresh1 fresh2 : Application) :
    setup_application (setup_application bot fresh1).1 fresh2 =
      setup_application bot fresh1 := by
  cases h : bot.application <;> simp [setup_application, h]

/-- C10: an update with no message, or whose message has no text (absent or
empty, Python falsiness), makes the handler return immediately: its trace is
empty, so it performs no downstream send or edit, opens no upstream stream,
and leaves all relay and session state unchanged. -/
theorem c10_guard_returns_immediately (env : Nat → PublishOutcome)
    (provider : Nat → UpstreamAttempt) (upd : Update)
    (h : upd.message = none ∨
         ∃ m, upd.message = some m ∧ (m.text = none ∨ m.text = some "")) :
    handle_message env provider upd = [] := by
  rcases h with h | ⟨m, hm, hn | he⟩ <;> simp [handle_message, *]

/-- C10 witness: the theorem applied to the message-less update. -/
theorem c10_guard_returns_immediately_witness :
    handle_message (fun _ => .ok) (fun _ => .timeout) ⟨none⟩ = [] :=
  c10_guard_returns_immediately (fun _ => .ok) (fun _ => .timeout) ⟨none⟩ (Or.inl rfl)

end Telegram
